import Mathlib

/-!
Verification of the decision engine of `source/fancontrol.c`.

Shallow embedding conventions:
* C `float` values (temperatures, fan duty cycles) are modelled as exact
  rationals `ℚ`; the temperature field of a control point is a signed
  integer `ℤ` as in the source struct.
* The `u32 stableReadings` counter is a `Nat` with an explicit `% 2^32`
  at the increment (the only place overflow could matter).
* Sleep intervals (`u64` nanoseconds) are `Nat` literals; all values are
  tiny compared to `2^64`, so no reduction is needed.
* Global mutable state (`lastTemperature`, `lastFanLevel`,
  `stableReadings`, `thermalEmergency`, `systemInSleepMode`) becomes the
  explicit record `FanState`; functions that mutate it return the new
  values alongside their C return value.
* External collaborators (file system, sensor, power probe) become
  explicit inputs: the sensor read is an `Option ℚ`, the power probe a
  `Bool`, the config-store state an `FsState` record.
-/

/-- One fan-curve control point (`TemperaturePoint` in the source):
a signed integer temperature in °C and a fractional fan level. -/
structure TemperaturePoint where
  temperature_c : ℤ
  fanLevel_f : ℚ
deriving DecidableEq

/-- The fan table is a fixed-size record of five control points, as in the
source (`TABLE_SIZE/sizeof(TemperaturePoint) = 5`). -/
structure FanTable where
  p0 : TemperaturePoint
  p1 : TemperaturePoint
  p2 : TemperaturePoint
  p3 : TemperaturePoint
  p4 : TemperaturePoint
deriving DecidableEq

/-- The built-in default fan curve (`defaultTable`, fancontrol.c lines 5-12). -/
def defaultTable : FanTable :=
  ⟨⟨20, 1/10⟩, ⟨40, 1/2⟩, ⟨50, 3/5⟩, ⟨60, 7/10⟩, ⟨100, 1⟩⟩

/-- Linear interpolation on one segment of the curve, mirroring the body of
the scan loop in `CalculateFanLevel` (lines 220-235): the zero-width-interval
guard returns the lower level, otherwise `m * t + q` with
`m = Δlevel / Δtemp` and `q = level_a - m * temp_a`. -/
def segEval (a b : TemperaturePoint) (t : ℚ) : ℚ :=
  if ((b.temperature_c : ℚ) - (a.temperature_c : ℚ)) ≤ 0 then a.fanLevel_f
  else
    let m := (b.fanLevel_f - a.fanLevel_f) /
      ((b.temperature_c : ℚ) - (a.temperature_c : ℚ))
    m * t + (a.fanLevel_f - m * (a.temperature_c : ℚ))

/-- Body of `CalculateFanLevel` for a non-null table (lines 206-237).
The four-iteration scan loop over `[p_i, p_i+1]` (closed on both ends,
first match wins) is unrolled to nested conditionals. -/
def CalculateFanLevelTable (tab : FanTable) (t : ℚ) : ℚ :=
  if t ≤ 0 then 0
  else if t ≤ (tab.p0.temperature_c : ℚ) then
    tab.p0.fanLevel_f / (tab.p0.temperature_c : ℚ) * t
  else if (tab.p4.temperature_c : ℚ) ≤ t then tab.p4.fanLevel_f
  else if (tab.p0.temperature_c : ℚ) ≤ t ∧ t ≤ (tab.p1.temperature_c : ℚ) then
    segEval tab.p0 tab.p1 t
  else if (tab.p1.temperature_c : ℚ) ≤ t ∧ t ≤ (tab.p2.temperature_c : ℚ) then
    segEval tab.p1 tab.p2 t
  else if (tab.p2.temperature_c : ℚ) ≤ t ∧ t ≤ (tab.p3.temperature_c : ℚ) then
    segEval tab.p2 tab.p3 t
  else if (tab.p3.temperature_c : ℚ) ≤ t ∧ t ≤ (tab.p4.temperature_c : ℚ) then
    segEval tab.p3 tab.p4 t
  else 0

/-- `CalculateFanLevel` (lines 202-238), including the null-table guard
(line 204): a missing table yields level `0`. -/
def CalculateFanLevel (tab : Option FanTable) (t : ℚ) : ℚ :=
  match tab with
  | none => 0
  | some tb => CalculateFanLevelTable tb t

/-- The mutable globals of the control loop, gathered into one record:
`lastTemperature`, `lastFanLevel`, `stableReadings` (a `u32`),
`thermalEmergency` and `systemInSleepMode` (lines 18-26). -/
structure FanState where
  lastTemperature : ℚ
  lastFanLevel : ℚ
  stableReadings : Nat
  thermalEmergency : Bool
  systemInSleepMode : Bool
deriving DecidableEq

/-- The outputs of `CalculateAdaptiveSleepTime`: its `u64` return value and
the new values of the two globals it may write. -/
structure SchedResult where
  sleepTime : Nat
  stableReadings : Nat
  thermalEmergency : Bool
deriving DecidableEq

/-- `CalculateAdaptiveSleepTime` (lines 240-278).  Thresholds:
critical 90, emergency 80, temperature stability 2, fan stability 0.05,
relaxation after 10 stable readings.  Intervals in nanoseconds:
emergency 1 s, normal 10 s, long 30 s, sleep-mode 300 s.  The `u32`
increment of `stableReadings` wraps modulo `2^32`. -/
def CalculateAdaptiveSleepTime (st : FanState) (currentTemp fanLevel : ℚ) :
    SchedResult :=
  if (90 : ℚ) ≤ currentTemp then
    ⟨1000000000, st.stableReadings, true⟩
  else if (80 : ℚ) ≤ currentTemp then
    ⟨1000000000 * 2, st.stableReadings, true⟩
  else if st.systemInSleepMode then
    ⟨300000000000, st.stableReadings, false⟩
  else
    -- locals of the source, inlined: `tempChange = |currentTemp - lastTemperature|`,
    -- `fanChange = |fanLevel - lastFanLevel|`, and the updated counter
    -- (incremented as a u32 when both are stable, reset otherwise)
    if 10 ≤ (if |currentTemp - st.lastTemperature| < 2 ∧
                |fanLevel - st.lastFanLevel| < 1/20 then
              (st.stableReadings + 1) % 2 ^ 32 else 0) then
      ⟨30000000000,
       (if |currentTemp - st.lastTemperature| < 2 ∧
           |fanLevel - st.lastFanLevel| < 1/20 then
         (st.stableReadings + 1) % 2 ^ 32 else 0), false⟩
    else if |currentTemp - st.lastTemperature| < 2 * 2 then
      ⟨10000000000,
       (if |currentTemp - st.lastTemperature| < 2 ∧
           |fanLevel - st.lastFanLevel| < 1/20 then
         (st.stableReadings + 1) % 2 ^ 32 else 0), false⟩
    else
      ⟨10000000000 / 2,
       (if |currentTemp - st.lastTemperature| < 2 ∧
           |fanLevel - st.lastFanLevel| < 1/20 then
         (st.stableReadings + 1) % 2 ^ 32 else 0), false⟩

/-- One scheduler tick as the control loop performs it (lines 347-351):
call `CalculateAdaptiveSleepTime`, then store the current temperature and
fan level into the globals.  Returns the new state and the sleep time. -/
def schedStep (st : FanState) (x : ℚ × ℚ) : FanState × Nat :=
  let r := CalculateAdaptiveSleepTime st x.1 x.2
  (⟨x.1, x.2, r.stableReadings, r.thermalEmergency, st.systemInSleepMode⟩,
   r.sleepTime)

/-- Final state after a sequence of scheduler ticks. -/
def schedRunState : FanState → List (ℚ × ℚ) → FanState
  | st, [] => st
  | st, x :: xs => schedRunState (schedStep st x).1 xs

/-- The sleep intervals returned along a sequence of scheduler ticks. -/
def schedRunIntervals : FanState → List (ℚ × ℚ) → List Nat
  | _, [] => []
  | st, x :: xs => (schedStep st x).2 :: schedRunIntervals (schedStep st x).1 xs

/-- The per-tick stability classification along a run: a tick counts as
stable when both deltas are below their thresholds (line 264). -/
def stabFlags : FanState → List (ℚ × ℚ) → List Bool
  | _, [] => []
  | st, x :: xs =>
    decide (|x.1 - st.lastTemperature| < 2 ∧ |x.2 - st.lastFanLevel| < 1/20)
      :: stabFlags (schedStep st x).1 xs

/-- Pure recurrence of the stable-readings counter over a list of stability
flags: increment modulo `2^32` on a stable tick, reset to zero otherwise. -/
def countFold : Nat → List Bool → List Nat
  | _, [] => []
  | c, b :: bs =>
    let c2 := if b then (c + 1) % 2 ^ 32 else 0
    c2 :: countFold c2 bs

/-- One iteration of the `Running` loop of `FanControllerThreadFunction`
(lines 302-355) with a successful thread start.  Inputs: the curve table,
the current state, the power-probe answer (`CheckSystemSleepState`) and the
sensor read result (`Tmp451GetSocTemp`, `none` on failure).  Outputs: the
new state, whether a duty-cycle write to the device was issued
(`shouldUpdateFan`), and the nanoseconds slept at the end of the tick.
On a failed read the loop logs, sleeps the normal interval and retries
(lines 309-315); device-write failures do not alter the state, so the
write itself is reported only as the boolean. -/
def loopStep (tab : Option FanTable) (st : FanState) (suspended : Bool)
    (read : Option ℚ) : FanState × Bool × Nat :=
  let st1 : FanState :=
    ⟨st.lastTemperature, st.lastFanLevel, st.stableReadings,
     st.thermalEmergency, suspended⟩
  match read with
  | none => (st1, false, 10000000000)
  | some t =>
    let f := CalculateFanLevel tab t
    let shouldUpdateFan : Bool :=
      if st1.thermalEmergency then true
      else if (1/50 : ℚ) < |f - st1.lastFanLevel| then true
      else if st1.systemInSleepMode ∧ (1/10 : ℚ) < f then true
      else false
    let r := CalculateAdaptiveSleepTime st1 t f
    (⟨t, f, r.stableReadings, r.thermalEmergency, st1.systemInSleepMode⟩,
     shouldUpdateFan, r.sleepTime)

/-- Observer run over the control loop: fold `loopStep` over a list of
(power-probe, sensor-read) inputs, tracking as a ghost variable the last
duty value actually written to the device.  Each output element records
whether that tick pushed and the duty value the device held before the tick. -/
def pushTrace (tab : Option FanTable) :
    FanState → ℚ → List (Bool × Option ℚ) → List (Bool × ℚ)
  | _, _, [] => []
  | st, lastPushed, (susp, rd) :: rest =>
    let s := loopStep tab st susp rd
    let newPushed := if s.2.1 then s.1.lastFanLevel else lastPushed
    (s.2.1, lastPushed) :: pushTrace tab s.1 newPushed rest

/-- The file-system conditions `ReadConfigFile` branches on: whether the
initial `malloc` succeeds, whether the config directory and file exist,
whether `fopen` succeeds, whether `fread` returns one full record, and the
stored table bytes decoded as control points when the read succeeds. -/
structure FsState where
  allocOk : Bool
  configDirExists : Bool
  configFileExists : Bool
  fopenOk : Bool
  freadFullRecord : Bool
  storedTable : FanTable
deriving DecidableEq

/-- `ReadConfigFile` (lines 129-172).  Returns the table delivered through
`table_out` (`none` when the allocation fails, line 136) and the number of
`WriteConfigFile` calls the run performs: one when the config directory is
missing (line 146) or the file is missing (line 153), none otherwise.  When
the file opens and a full record is read, the stored bytes are returned
(line 163); a failed open or a short read leaves the pre-copied default in
the buffer (lines 141, 167) without any rewrite. -/
def ReadConfigFile (fs : FsState) : Option FanTable × Nat :=
  if ¬ fs.allocOk then (none, 0)
  else if ¬ fs.configDirExists then (some defaultTable, 1)
  else if ¬ fs.configFileExists then (some defaultTable, 1)
  else if ¬ fs.fopenOk then (some defaultTable, 0)
  else if fs.freadFullRecord then (some fs.storedTable, 0)
  else (some defaultTable, 0)

/-- Validity of a loaded curve per the data model: strictly increasing
temperatures and duty cycles in `[0, 1]`. -/
def ValidTable (tab : FanTable) : Prop :=
  tab.p0.temperature_c < tab.p1.temperature_c ∧
  tab.p1.temperature_c < tab.p2.temperature_c ∧
  tab.p2.temperature_c < tab.p3.temperature_c ∧
  tab.p3.temperature_c < tab.p4.temperature_c ∧
  0 ≤ tab.p0.fanLevel_f ∧ tab.p0.fanLevel_f ≤ 1 ∧
  0 ≤ tab.p1.fanLevel_f ∧ tab.p1.fanLevel_f ≤ 1 ∧
  0 ≤ tab.p2.fanLevel_f ∧ tab.p2.fanLevel_f ≤ 1 ∧
  0 ≤ tab.p3.fanLevel_f ∧ tab.p3.fanLevel_f ≤ 1 ∧
  0 ≤ tab.p4.fanLevel_f ∧ tab.p4.fanLevel_f ≤ 1

instance (tab : FanTable) : Decidable (ValidTable tab) := by
  unfold ValidTable; infer_instance

/-- Duty cycles non-decreasing along the curve. -/
def MonotoneDuties (tab : FanTable) : Prop :=
  tab.p0.fanLevel_f ≤ tab.p1.fanLevel_f ∧
  tab.p1.fanLevel_f ≤ tab.p2.fanLevel_f ∧
  tab.p2.fanLevel_f ≤ tab.p3.fanLevel_f ∧
  tab.p3.fanLevel_f ≤ tab.p4.fanLevel_f

instance (tab : FanTable) : Decidable (MonotoneDuties tab) := by
  unfold MonotoneDuties; infer_instance

/-- A strictly-increasing five-point curve whose temperatures are all
negative; used to probe the clamp behaviour of the evaluator. -/
def negTempTable : FanTable :=
  ⟨⟨-10, 1/10⟩, ⟨-8, 3/20⟩, ⟨-6, 1/5⟩, ⟨-4, 1/4⟩, ⟨-1, 3/10⟩⟩

/-- C6: whenever the sampled temperature is at or above the critical
threshold 90, the scheduler sets the thermal-emergency flag and returns
the 1-second emergency interval, leaving the stable-readings counter
untouched — independently of every other component of the state and of
the fan level. -/
theorem critical_always_fastest (st : FanState) (t f : ℚ)
    (h : (90 : ℚ) ≤ t) :
    CalculateAdaptiveSleepTime st t f = ⟨1000000000, st.stableReadings, true⟩ := by
  unfold CalculateAdaptiveSleepTime
  rw [if_pos h]

/-- Witness for `critical_always_fastest` at temperature 95 with a busy
counter and sleep mode active. -/
theorem critical_always_fastest_witness :
    CalculateAdaptiveSleepTime ⟨0, 0, 7, false, true⟩ 95 1 =
      ⟨1000000000, 7, true⟩ :=
  critical_always_fastest ⟨0, 0, 7, false, true⟩ 95 1 (by norm_num)

/-- C7: on a tick whose sensor read fails, the loop neither aborts nor
decides a duty cycle: the last temperature, last fan level, stable-readings
counter and emergency flag are unchanged (only the freshly sampled sleep
flag is stored), no device write is issued, and the tick sleeps exactly the
10-second normal interval. -/
theorem readFailure_frame (tab : Option FanTable) (st : FanState)
    (susp : Bool) :
    loopStep tab st susp none =
      (⟨st.lastTemperature, st.lastFanLevel, st.stableReadings,
        st.thermalEmergency, susp⟩, false, 10000000000) :=
  rfl

/-- C10: after every scheduler call with sampled temperature `t`, the
thermal-emergency flag equals `80 ≤ t`: it is set exactly on readings at or
above the elevated threshold and recomputed afresh on every call, with no
latching across ticks. -/
theorem thermalEmergency_iff_elevated (st : FanState) (t f : ℚ) :
    (CalculateAdaptiveSleepTime st t f).thermalEmergency =
      decide ((80 : ℚ) ≤ t) := by
  unfold CalculateAdaptiveSleepTime
  by_cases h1 : (90 : ℚ) ≤ t
  · rw [if_pos h1]
    exact (decide_eq_true (by linarith : (80 : ℚ) ≤ t)).symm
  · rw [if_neg h1]
    by_cases h2 : (80 : ℚ) ≤ t
    · rw [if_pos h2]
      exact (decide_eq_true h2).symm
    · rw [if_neg h2]
      have hd : decide ((80 : ℚ) ≤ t) = false := decide_eq_false h2
      by_cases h3 : st.systemInSleepMode
      · rw [if_pos h3]
        exact hd.symm
      · rw [if_neg h3]
        split_ifs <;> exact hd.symm

/-- C5 counterexample: a three-tick run on the default curve (temperatures
40, 41.5, 43, never suspended, never in emergency) in which the duty values
computed are 0.5, 0.515, 0.53 and only the first is pushed.  On the third
tick the device still holds 0.5, so the distance from the last PUSHED duty
is 0.03 > 0.02 and the claim demands a push, yet the code compares against
the last COMPUTED duty (0.515, distance 0.015) and does not push. -/
theorem pushDecision_lastPushed_cex :
    pushTrace (some defaultTable) ⟨0, 0, 0, false, false⟩ 0
        [(false, some 40), (false, some (83/2)), (false, some 43)] =
      [(true, 0), (false, 1/2), (false, 1/2)] ∧
    (1/50 : ℚ) < |CalculateFanLevel (some defaultTable) 43 - 1/2| := by
  constructor
  · norm_num [pushTrace, loopStep, CalculateFanLevel, CalculateFanLevelTable,
      segEval, CalculateAdaptiveSleepTime, defaultTable, abs_lt, lt_abs,
      abs_le, le_abs]
  · norm_num [CalculateFanLevel, CalculateFanLevelTable, segEval,
      defaultTable, lt_abs]

/-- C5 amended: on a Running tick with a successful read, the duty value is
pushed to the device iff the emergency flag is set, or the new duty differs
from the last COMPUTED duty (updated every tick, pushed or not) by more
than 0.02, or the suspended flag is set and the new duty exceeds 0.1. -/
theorem pushDecision_iff (tab : Option FanTable) (st : FanState)
    (susp : Bool) (t : ℚ) :
    (loopStep tab st susp (some t)).2.1 = true ↔
      (st.thermalEmergency = true ∨
       (1/50 : ℚ) < |CalculateFanLevel tab t - st.lastFanLevel| ∨
       (susp = true ∧ (1/10 : ℚ) < CalculateFanLevel tab t)) := by
  unfold loopStep
  dsimp only
  split_ifs with h1 h2 h3 <;> simp_all

/-- C3 counterexample: on an Elevated tick (temperature 85) the scheduler
returns before touching the stability tracker.  With a last temperature of
0 the delta is 85, far above the 2-degree stability threshold, so the claim
demands a reset to zero; the code leaves the counter at 5. -/
theorem stabilityUpdate_skipped_cex :
    ¬ (|(85 : ℚ) - (0 : ℚ)| < 2) ∧
    (CalculateAdaptiveSleepTime ⟨0, 0, 5, false, false⟩ 85 (3/5)).stableReadings
      = 5 := by
  constructor
  · norm_num
  · norm_num [CalculateAdaptiveSleepTime]

/-- Characterization of the counter update performed by one scheduler
call: untouched on Elevated/Critical or sleep-mode ticks, otherwise
incremented modulo `2^32` when stable and reset to zero when not. -/
lemma sched_counter_eq (st : FanState) (t f : ℚ) :
    (CalculateAdaptiveSleepTime st t f).stableReadings =
      if (80 : ℚ) ≤ t ∨ st.systemInSleepMode = true then st.stableReadings
      else if |t - st.lastTemperature| < 2 ∧ |f - st.lastFanLevel| < 1/20 then
        (st.stableReadings + 1) % 2 ^ 32
      else 0 := by
  unfold CalculateAdaptiveSleepTime
  by_cases h1 : (90 : ℚ) ≤ t
  · rw [if_pos h1, if_pos (Or.inl (by linarith))]
  · rw [if_neg h1]
    by_cases h2 : (80 : ℚ) ≤ t
    · rw [if_pos h2, if_pos (Or.inl h2)]
    · rw [if_neg h2]
      by_cases h3 : st.systemInSleepMode
      · rw [if_pos h3, if_pos (Or.inr h3)]
      · rw [if_neg h3,
          if_neg (show ¬ ((80 : ℚ) ≤ t ∨ st.systemInSleepMode = true) by
            simp [h2, h3])]
        split_ifs <;> rfl

/-- On a non-emergency, non-sleep tick the scheduler hands back the
30-second relaxed interval exactly when the updated counter has reached
the required-stable-count 10. -/
lemma sched_relaxed_iff (st : FanState) (t f : ℚ)
    (hs : st.systemInSleepMode = false) (ht : t < 80) :
    ((CalculateAdaptiveSleepTime st t f).sleepTime = 30000000000 ↔
      10 ≤ (CalculateAdaptiveSleepTime st t f).stableReadings) := by
  unfold CalculateAdaptiveSleepTime
  rw [if_neg (by linarith : ¬ (90 : ℚ) ≤ t),
    if_neg (by linarith : ¬ (80 : ℚ) ≤ t), if_neg (by simp [hs])]
  split_ifs with h1 h2 <;> simp_all

/-- C3 amended: the stability-tracker update runs only on ticks that are
neither Elevated/Critical (temperature at or above 80) nor in sleep mode;
on those ticks the counter is incremented (modulo `2^32`) when both deltas
are below their thresholds and reset to zero otherwise, and on all other
ticks it is left unchanged. -/
theorem stableReadings_update_characterization (st : FanState) (t f : ℚ) :
    (CalculateAdaptiveSleepTime st t f).stableReadings =
      if (80 : ℚ) ≤ t ∨ st.systemInSleepMode = true then st.stableReadings
      else if |t - st.lastTemperature| < 2 ∧ |f - st.lastFanLevel| < 1/20 then
        (st.stableReadings + 1) % 2 ^ 32
      else 0 :=
  sched_counter_eq st t f

/-- Bridge between a scheduler run and the pure counter recurrence: as long
as every reading stays below the elevated threshold and sleep mode is off,
the ticks that return the relaxed 30-second interval are exactly the ticks
whose updated counter (per `countFold` over the stability flags) has
reached 10. -/
lemma relaxedTicks_eq_countFold (xs : List (ℚ × ℚ)) :
    ∀ st : FanState, st.systemInSleepMode = false → (∀ p ∈ xs, p.1 < 80) →
      (schedRunIntervals st xs).map (fun iv => decide (iv = 30000000000)) =
        (countFold st.stableReadings (stabFlags st xs)).map
          (fun c => decide (10 ≤ c)) := by
  induction xs with
  | nil => intro st _ _; rfl
  | cons x xs ih =>
    intro st hs ht
    have hx : x.1 < 80 := ht x (List.mem_cons_self x xs)
    have ht2 : ∀ p ∈ xs, p.1 < 80 := fun p hp => ht p (List.mem_cons_of_mem x hp)
    have hsm : (schedStep st x).1.systemInSleepMode = false := hs
    have hcnt : (schedStep st x).1.stableReadings =
        if |x.1 - st.lastTemperature| < 2 ∧ |x.2 - st.lastFanLevel| < 1/20 then
          (st.stableReadings + 1) % 2 ^ 32
        else 0 := by
      rw [show (schedStep st x).1.stableReadings =
            (CalculateAdaptiveSleepTime st x.1 x.2).stableReadings from rfl,
        sched_counter_eq,
        if_neg (show ¬ ((80 : ℚ) ≤ x.1 ∨ st.systemInSleepMode = true) by
          simp [hs]; linarith)]
    simp only [schedRunIntervals, stabFlags, countFold, List.map_cons,
      decide_eq_true_eq]
    refine congrArg₂ List.cons ?_ ?_
    · rw [decide_eq_decide,
        show (schedStep st x).2 = (CalculateAdaptiveSleepTime st x.1 x.2).sleepTime
          from rfl,
        sched_relaxed_iff st x.1 x.2 hs hx,
        show (CalculateAdaptiveSleepTime st x.1 x.2).stableReadings =
          (schedStep st x).1.stableReadings from rfl,
        hcnt]
    · rw [ih (schedStep st x).1 hsm ht2, hcnt]

/-- C4: starting from a reset stability state with sleep mode off, along
any 21-tick run whose readings stay below the elevated threshold and whose
stability pattern is 9 stable, 1 unstable, 11 stable, the relaxed 30-second
interval is returned exactly on the last two ticks — the 10th and 11th
consecutive stable ticks of the final run — and on no tick of the first
9-stable run. -/
theorem relaxed_only_after_ten_stable (st : FanState) (xs : List (ℚ × ℚ))
    (h0 : st.stableReadings = 0) (hs : st.systemInSleepMode = false)
    (ht : ∀ p ∈ xs, p.1 < 80)
    (hf : stabFlags st xs =
      List.replicate 9 true ++ false :: List.replicate 11 true) :
    (schedRunIntervals st xs).map (fun iv => decide (iv = 30000000000)) =
      List.replicate 19 false ++ [true, true] := by
  rw [relaxedTicks_eq_countFold xs st hs ht, hf, h0]
  rfl

/-- Witness for `relaxed_only_after_ten_stable`: readings 0 nine times,
then 10 (a jump of 10 degrees, unstable), then 10 eleven times, all with
fan input 0. -/
theorem relaxed_only_after_ten_stable_witness :
    (schedRunIntervals ⟨0, 0, 0, false, false⟩
        (List.replicate 9 ((0 : ℚ), (0 : ℚ)) ++
          ((10 : ℚ), (0 : ℚ)) :: List.replicate 11 ((10 : ℚ), (0 : ℚ)))).map
        (fun iv => decide (iv = 30000000000)) =
      List.replicate 19 false ++ [true, true] :=
  relaxed_only_after_ten_stable ⟨0, 0, 0, false, false⟩ _ rfl rfl
    (by
      intro p hp
      simp only [List.mem_append, List.mem_cons, List.mem_replicate] at hp
      rcases hp with h | h | h
      · rw [h.2]; norm_num
      · rw [h]; norm_num
      · rw [h.2]; norm_num)
    (by
      norm_num [stabFlags, schedStep, CalculateAdaptiveSleepTime,
        List.replicate])

/-- C2 counterexample: starting from the reset state, eleven consecutive
stable readings drive the counter to 11, strictly above the claimed
ceiling of 10 — the increment does not saturate. -/
theorem stableReadings_exceeds_ceiling_cex :
    10 < (schedRunState ⟨0, 0, 0, false, false⟩
      (List.replicate 11 ((0 : ℚ), (0 : ℚ)))).stableReadings := by
  norm_num [schedRunState, schedStep, CalculateAdaptiveSleepTime,
    List.replicate]

/-- C2 amended: the counter does not clamp at the required-stable-count;
its only bound is the 32-bit wrap of the `u32` increment: any in-range
counter is still in range after a stability update. -/
theorem stableReadings_u32_bound (st : FanState) (t f : ℚ)
    (h : st.stableReadings < 2 ^ 32) :
    (CalculateAdaptiveSleepTime st t f).stableReadings < 2 ^ 32 := by
  unfold CalculateAdaptiveSleepTime
  split_ifs <;>
    first
      | exact h
      | exact Nat.mod_lt _ (by norm_num)
      | exact (by norm_num : (0 : ℕ) < 2 ^ 32)

/-- Witness for `stableReadings_u32_bound` at a concrete state. -/
theorem stableReadings_u32_bound_witness :
    (CalculateAdaptiveSleepTime ⟨0, 0, 3, false, false⟩ 0 0).stableReadings
      < 2 ^ 32 :=
  stableReadings_u32_bound ⟨0, 0, 3, false, false⟩ 0 0 (by norm_num)

/-- C1 counterexample: with the config directory and file present but the
record short (a failed `fread` of the fixed-size record), `ReadConfigFile`
falls back to the default curve yet performs zero `WriteConfigFile` calls,
not the single rewrite the claim requires. -/
theorem readConfig_corrupt_no_save_cex :
    ReadConfigFile ⟨true, true, true, true, false, defaultTable⟩ =
      (some defaultTable, 0) ∧
    (ReadConfigFile ⟨true, true, true, true, false, defaultTable⟩).2 ≠ 1 := by
  constructor <;> simp [ReadConfigFile]

/-- C1 amended: when the persisted record is absent (missing directory or
missing file), the load returns the built-in default and triggers exactly
one save of the default; when the record is present but the open fails or
the read is short, the load still returns the default but performs no save
at all. -/
theorem readConfig_default_fallback (fs : FsState)
    (halloc : fs.allocOk = true) :
    ((fs.configDirExists = false ∨ fs.configFileExists = false) →
      ReadConfigFile fs = (some defaultTable, 1)) ∧
    (fs.configDirExists = true → fs.configFileExists = true →
      (fs.fopenOk = false ∨ fs.freadFullRecord = false) →
      ReadConfigFile fs = (some defaultTable, 0)) := by
  obtain ⟨a, d, fi, o, r, tb⟩ := fs
  cases a <;> cases d <;> cases fi <;> cases o <;> cases r <;>
    simp_all [ReadConfigFile]

/-- Witness for `readConfig_default_fallback`: a missing config file
triggers the default plus one rewrite, and separately a short read on a
present file yields the default with no rewrite. -/
theorem readConfig_default_fallback_witness :
    ReadConfigFile ⟨true, true, false, true, true, defaultTable⟩ =
      (some defaultTable, 1) ∧
    ReadConfigFile ⟨true, true, true, false, true, defaultTable⟩ =
      (some defaultTable, 0) := by
  constructor
  · exact (readConfig_default_fallback
      ⟨true, true, false, true, true, defaultTable⟩ rfl).1 (Or.inr rfl)
  · exact (readConfig_default_fallback
      ⟨true, true, true, false, true, defaultTable⟩ rfl).2 rfl rfl (Or.inl rfl)

section CurveMonotonicity

/-- On a genuine (positive-width) segment, `segEval` is the affine map
`m * t + q`. -/
lemma segEval_eq (a b : TemperaturePoint) (t : ℚ)
    (hT : (a.temperature_c : ℚ) < (b.temperature_c : ℚ)) :
    segEval a b t =
      (b.fanLevel_f - a.fanLevel_f) /
          ((b.temperature_c : ℚ) - (a.temperature_c : ℚ)) * t +
        (a.fanLevel_f -
          (b.fanLevel_f - a.fanLevel_f) /
              ((b.temperature_c : ℚ) - (a.temperature_c : ℚ)) *
            (a.temperature_c : ℚ)) := by
  unfold segEval
  rw [if_neg (by linarith)]

/-- Segment interpolation with non-decreasing duty is monotone. -/
lemma segEval_mono (a b : TemperaturePoint) (t1 t2 : ℚ)
    (hT : (a.temperature_c : ℚ) < (b.temperature_c : ℚ))
    (hf : a.fanLevel_f ≤ b.fanLevel_f) (h12 : t1 ≤ t2) :
    segEval a b t1 ≤ segEval a b t2 := by
  rw [segEval_eq a b t1 hT, segEval_eq a b t2 hT]
  have hm : 0 ≤ (b.fanLevel_f - a.fanLevel_f) /
      ((b.temperature_c : ℚ) - (a.temperature_c : ℚ)) :=
    div_nonneg (by linarith) (by linarith)
  have := mul_le_mul_of_nonneg_left h12 hm
  linarith

/-- Within or to the right of the segment start, interpolation stays at or
above the lower duty. -/
lemma segEval_lb (a b : TemperaturePoint) (t : ℚ)
    (hT : (a.temperature_c : ℚ) < (b.temperature_c : ℚ))
    (hf : a.fanLevel_f ≤ b.fanLevel_f) (ht : (a.temperature_c : ℚ) ≤ t) :
    a.fanLevel_f ≤ segEval a b t := by
  rw [segEval_eq a b t hT]
  have hm : 0 ≤ (b.fanLevel_f - a.fanLevel_f) /
      ((b.temperature_c : ℚ) - (a.temperature_c : ℚ)) :=
    div_nonneg (by linarith) (by linarith)
  have h1 := mul_nonneg hm (sub_nonneg.mpr ht)
  have h2 : (b.fanLevel_f - a.fanLevel_f) /
        ((b.temperature_c : ℚ) - (a.temperature_c : ℚ)) *
        (t - (a.temperature_c : ℚ)) =
      (b.fanLevel_f - a.fanLevel_f) /
          ((b.temperature_c : ℚ) - (a.temperature_c : ℚ)) * t -
        (b.fanLevel_f - a.fanLevel_f) /
            ((b.temperature_c : ℚ) - (a.temperature_c : ℚ)) *
          (a.temperature_c : ℚ) := by ring
  linarith

/-- Within or to the left of the segment end, interpolation stays at or
below the upper duty. -/
lemma segEval_ub (a b : TemperaturePoint) (t : ℚ)
    (hT : (a.temperature_c : ℚ) < (b.temperature_c : ℚ))
    (hf : a.fanLevel_f ≤ b.fanLevel_f) (ht : t ≤ (b.temperature_c : ℚ)) :
    segEval a b t ≤ b.fanLevel_f := by
  rw [segEval_eq a b t hT]
  have hm : 0 ≤ (b.fanLevel_f - a.fanLevel_f) /
      ((b.temperature_c : ℚ) - (a.temperature_c : ℚ)) :=
    div_nonneg (by linarith) (by linarith)
  have hmul := mul_le_mul_of_nonneg_left ht hm
  have hcancel : (b.fanLevel_f - a.fanLevel_f) /
        ((b.temperature_c : ℚ) - (a.temperature_c : ℚ)) *
        ((b.temperature_c : ℚ) - (a.temperature_c : ℚ)) =
      b.fanLevel_f - a.fanLevel_f :=
    div_mul_cancel₀ _ (by linarith)
  have hexp : (b.fanLevel_f - a.fanLevel_f) /
        ((b.temperature_c : ℚ) - (a.temperature_c : ℚ)) *
        ((b.temperature_c : ℚ) - (a.temperature_c : ℚ)) =
      (b.fanLevel_f - a.fanLevel_f) /
          ((b.temperature_c : ℚ) - (a.temperature_c : ℚ)) *
          (b.temperature_c : ℚ) -
        (b.fanLevel_f - a.fanLevel_f) /
            ((b.temperature_c : ℚ) - (a.temperature_c : ℚ)) *
          (a.temperature_c : ℚ) := by ring
  linarith

/-- The below-first-point ramp `fa / Ta * t` stays at or below `fa`. -/
lemma firstRamp_ub (fa Ta t : ℚ) (hT : 0 < Ta) (hf : 0 ≤ fa) (ht : t ≤ Ta) :
    fa / Ta * t ≤ fa := by
  have hm : 0 ≤ fa / Ta := div_nonneg hf (le_of_lt hT)
  have := mul_le_mul_of_nonneg_left ht hm
  have hcancel : fa / Ta * Ta = fa := div_mul_cancel₀ _ (ne_of_gt hT)
  linarith

/-- The below-first-point ramp is monotone. -/
lemma firstRamp_mono (fa Ta t1 t2 : ℚ) (hT : 0 < Ta) (hf : 0 ≤ fa)
    (h12 : t1 ≤ t2) : fa / Ta * t1 ≤ fa / Ta * t2 :=
  mul_le_mul_of_nonneg_left h12 (div_nonneg hf (le_of_lt hT))

/-- Evaluator formula on the non-positive region. -/
lemma CFL_eq_zero (tab : FanTable) (t : ℚ) (h : t ≤ 0) :
    CalculateFanLevelTable tab t = 0 := by
  unfold CalculateFanLevelTable
  rw [if_pos h]

/-- Evaluator formula on the below-first-point region. -/
lemma CFL_eq_first (tab : FanTable) (t : ℚ) (h0 : 0 < t)
    (h1 : t ≤ (tab.p0.temperature_c : ℚ)) :
    CalculateFanLevelTable tab t =
      tab.p0.fanLevel_f / (tab.p0.temperature_c : ℚ) * t := by
  unfold CalculateFanLevelTable
  rw [if_neg (by linarith), if_pos h1]

/-- Evaluator formula on the at-or-above-last-point region. -/
lemma CFL_eq_last (tab : FanTable) (t : ℚ) (h0 : 0 < t)
    (h1 : (tab.p0.temperature_c : ℚ) < t)
    (h4 : (tab.p4.temperature_c : ℚ) ≤ t) :
    CalculateFanLevelTable tab t = tab.p4.fanLevel_f := by
  unfold CalculateFanLevelTable
  rw [if_neg (by linarith), if_neg (by linarith), if_pos h4]

/-- Evaluator formula on the first interior segment. -/
lemma CFL_eq_seg0 (tab : FanTable) (t : ℚ) (h0 : 0 < t)
    (hA : (tab.p0.temperature_c : ℚ) < t)
    (hB : t ≤ (tab.p1.temperature_c : ℚ))
    (h14 : (tab.p1.temperature_c : ℚ) < (tab.p4.temperature_c : ℚ)) :
    CalculateFanLevelTable tab t = segEval tab.p0 tab.p1 t := by
  unfold CalculateFanLevelTable
  rw [if_neg (by linarith), if_neg (by linarith), if_neg (by linarith),
    if_pos ⟨le_of_lt hA, hB⟩]

/-- Evaluator formula on the second interior segment. -/
lemma CFL_eq_seg1 (tab : FanTable) (t : ℚ) (h0 : 0 < t)
    (h01 : (tab.p0.temperature_c : ℚ) < (tab.p1.temperature_c : ℚ))
    (hA : (tab.p1.temperature_c : ℚ) < t)
    (hB : t ≤ (tab.p2.temperature_c : ℚ))
    (h24 : (tab.p2.temperature_c : ℚ) < (tab.p4.temperature_c : ℚ)) :
    CalculateFanLevelTable tab t = segEval tab.p1 tab.p2 t := by
  unfold CalculateFanLevelTable
  rw [if_neg (by linarith), if_neg (by linarith), if_neg (by linarith),
    if_neg (fun hc => absurd hc.2 (not_le.mpr hA)),
    if_pos ⟨le_of_lt hA, hB⟩]

/-- Evaluator formula on the third interior segment. -/
lemma CFL_eq_seg2 (tab : FanTable) (t : ℚ) (h0 : 0 < t)
    (h01 : (tab.p0.temperature_c : ℚ) < (tab.p1.temperature_c : ℚ))
    (h12 : (tab.p1.temperature_c : ℚ) < (tab.p2.temperature_c : ℚ))
    (hA : (tab.p2.temperature_c : ℚ) < t)
    (hB : t ≤ (tab.p3.temperature_c : ℚ))
    (h34 : (tab.p3.temperature_c : ℚ) < (tab.p4.temperature_c : ℚ)) :
    CalculateFanLevelTable tab t = segEval tab.p2 tab.p3 t := by
  unfold CalculateFanLevelTable
  rw [if_neg (by linarith), if_neg (by linarith), if_neg (by linarith),
    if_neg (fun hc => absurd hc.2 (not_le.mpr (by linarith))),
    if_neg (fun hc => absurd hc.2 (not_le.mpr hA)),
    if_pos ⟨le_of_lt hA, hB⟩]

/-- Evaluator formula on the last interior segment. -/
lemma CFL_eq_seg3 (tab : FanTable) (t : ℚ) (h0 : 0 < t)
    (h01 : (tab.p0.temperature_c : ℚ) < (tab.p1.temperature_c : ℚ))
    (h12 : (tab.p1.temperature_c : ℚ) < (tab.p2.temperature_c : ℚ))
    (h23 : (tab.p2.temperature_c : ℚ) < (tab.p3.temperature_c : ℚ))
    (hA : (tab.p3.temperature_c : ℚ) < t)
    (hB : t < (tab.p4.temperature_c : ℚ)) :
    CalculateFanLevelTable tab t = segEval tab.p3 tab.p4 t := by
  unfold CalculateFanLevelTable
  rw [if_neg (by linarith), if_neg (by linarith), if_neg (by linarith),
    if_neg (fun hc => absurd hc.2 (not_le.mpr (by linarith))),
    if_neg (fun hc => absurd hc.2 (not_le.mpr (by linarith))),
    if_neg (fun hc => absurd hc.2 (not_le.mpr hA)),
    if_pos ⟨le_of_lt hA, le_of_lt hB⟩]

/-- The strict temperature ordering of a valid table, cast to ℚ. -/
lemma tempCasts (tab : FanTable) (hv : ValidTable tab) :
    ((tab.p0.temperature_c : ℚ) < (tab.p1.temperature_c : ℚ)) ∧
    ((tab.p1.temperature_c : ℚ) < (tab.p2.temperature_c : ℚ)) ∧
    ((tab.p2.temperature_c : ℚ) < (tab.p3.temperature_c : ℚ)) ∧
    ((tab.p3.temperature_c : ℚ) < (tab.p4.temperature_c : ℚ)) := by
  obtain ⟨h01, h12, h23, h34, _⟩ := hv
  exact ⟨by exact_mod_cast h01, by exact_mod_cast h12,
    by exact_mod_cast h23, by exact_mod_cast h34⟩

/-- The evaluator never returns a negative duty on a valid monotone
curve. -/
lemma CFL_nonneg (tab : FanTable) (t : ℚ) (hv : ValidTable tab)
    (hm : MonotoneDuties tab) : 0 ≤ CalculateFanLevelTable tab t := by
  obtain ⟨hT01, hT12, hT23, hT34⟩ := tempCasts tab hv
  obtain ⟨_, _, _, _, hf0, _, hf1, _, hf2, _, hf3, _, hf4, _⟩ := hv
  obtain ⟨hm01, hm12, hm23, hm34⟩ := hm
  rcases le_or_lt t 0 with h | h0
  · rw [CFL_eq_zero tab t h]
  · rcases le_or_lt t (tab.p0.temperature_c : ℚ) with hA | hA
    · rw [CFL_eq_first tab t h0 hA]
      exact mul_nonneg (div_nonneg hf0 (by linarith)) (le_of_lt h0)
    · rcases le_or_lt t (tab.p1.temperature_c : ℚ) with hB | hB
      · rw [CFL_eq_seg0 tab t h0 hA hB (by linarith)]
        exact le_trans hf0 (segEval_lb _ _ _ hT01 hm01 (le_of_lt hA))
      · rcases le_or_lt t (tab.p2.temperature_c : ℚ) with hC | hC
        · rw [CFL_eq_seg1 tab t h0 hT01 hB hC (by linarith)]
          exact le_trans hf1 (segEval_lb _ _ _ hT12 hm12 (le_of_lt hB))
        · rcases le_or_lt t (tab.p3.temperature_c : ℚ) with hD | hD
          · rw [CFL_eq_seg2 tab t h0 hT01 hT12 hC hD (by linarith)]
            exact le_trans hf2 (segEval_lb _ _ _ hT23 hm23 (le_of_lt hC))
          · rcases lt_or_le t (tab.p4.temperature_c : ℚ) with hE | hE
            · rw [CFL_eq_seg3 tab t h0 hT01 hT12 hT23 hD hE]
              exact le_trans hf3 (segEval_lb _ _ _ hT34 hm34 (le_of_lt hD))
            · rw [CFL_eq_last tab t h0 (by linarith) hE]
              exact hf4

/-- The evaluator never exceeds the duty of the last point on a valid monotone
curve. -/
lemma CFL_le_last (tab : FanTable) (t : ℚ) (hv : ValidTable tab)
    (hm : MonotoneDuties tab) :
    CalculateFanLevelTable tab t ≤ tab.p4.fanLevel_f := by
  obtain ⟨hT01, hT12, hT23, hT34⟩ := tempCasts tab hv
  obtain ⟨_, _, _, _, hf0, _, hf1, _, hf2, _, hf3, _, hf4, _⟩ := hv
  obtain ⟨hm01, hm12, hm23, hm34⟩ := hm
  rcases le_or_lt t 0 with h | h0
  · rw [CFL_eq_zero tab t h]; linarith
  · rcases le_or_lt t (tab.p0.temperature_c : ℚ) with hA | hA
    · rw [CFL_eq_first tab t h0 hA]
      have := firstRamp_ub tab.p0.fanLevel_f (tab.p0.temperature_c : ℚ) t
        (by linarith) hf0 hA
      linarith
    · rcases le_or_lt t (tab.p1.temperature_c : ℚ) with hB | hB
      · rw [CFL_eq_seg0 tab t h0 hA hB (by linarith)]
        have := segEval_ub _ _ _ hT01 hm01 hB
        linarith
      · rcases le_or_lt t (tab.p2.temperature_c : ℚ) with hC | hC
        · rw [CFL_eq_seg1 tab t h0 hT01 hB hC (by linarith)]
          have := segEval_ub _ _ _ hT12 hm12 hC
          linarith
        · rcases le_or_lt t (tab.p3.temperature_c : ℚ) with hD | hD
          · rw [CFL_eq_seg2 tab t h0 hT01 hT12 hC hD (by linarith)]
            have := segEval_ub _ _ _ hT23 hm23 hD
            linarith
          · rcases lt_or_le t (tab.p4.temperature_c : ℚ) with hE | hE
            · rw [CFL_eq_seg3 tab t h0 hT01 hT12 hT23 hD hE]
              exact segEval_ub _ _ _ hT34 hm34 (le_of_lt hE)
            · rw [CFL_eq_last tab t h0 (by linarith) hE]

/-- Strictly beyond the first breakpoint the evaluator is at least the
first duty. -/
lemma CFL_ge_p0 (tab : FanTable) (t : ℚ) (hv : ValidTable tab)
    (hm : MonotoneDuties tab) (hpos : 0 < t)
    (hgt : (tab.p0.temperature_c : ℚ) < t) :
    tab.p0.fanLevel_f ≤ CalculateFanLevelTable tab t := by
  obtain ⟨hT01, hT12, hT23, hT34⟩ := tempCasts tab hv
  obtain ⟨hm01, hm12, hm23, hm34⟩ := hm
  rcases le_or_lt t (tab.p1.temperature_c : ℚ) with hB | hB
  · rw [CFL_eq_seg0 tab t hpos hgt hB (by linarith)]
    exact segEval_lb _ _ _ hT01 hm01 (le_of_lt hgt)
  · rcases le_or_lt t (tab.p2.temperature_c : ℚ) with hC | hC
    · rw [CFL_eq_seg1 tab t hpos hT01 hB hC (by linarith)]
      exact le_trans hm01 (segEval_lb _ _ _ hT12 hm12 (le_of_lt hB))
    · rcases le_or_lt t (tab.p3.temperature_c : ℚ) with hD | hD
      · rw [CFL_eq_seg2 tab t hpos hT01 hT12 hC hD (by linarith)]
        exact le_trans (le_trans hm01 hm12)
          (segEval_lb _ _ _ hT23 hm23 (le_of_lt hC))
      · rcases lt_or_le t (tab.p4.temperature_c : ℚ) with hE | hE
        · rw [CFL_eq_seg3 tab t hpos hT01 hT12 hT23 hD hE]
          exact le_trans (le_trans (le_trans hm01 hm12) hm23)
            (segEval_lb _ _ _ hT34 hm34 (le_of_lt hD))
        · rw [CFL_eq_last tab t hpos (by linarith) hE]
          exact le_trans (le_trans (le_trans hm01 hm12) hm23) hm34

/-- Strictly beyond the second breakpoint the evaluator is at least the
second duty. -/
lemma CFL_ge_p1 (tab : FanTable) (t : ℚ) (hv : ValidTable tab)
    (hm : MonotoneDuties tab) (hpos : 0 < t)
    (hgt : (tab.p1.temperature_c : ℚ) < t) :
    tab.p1.fanLevel_f ≤ CalculateFanLevelTable tab t := by
  obtain ⟨hT01, hT12, hT23, hT34⟩ := tempCasts tab hv
  obtain ⟨hm01, hm12, hm23, hm34⟩ := hm
  rcases le_or_lt t (tab.p2.temperature_c : ℚ) with hC | hC
  · rw [CFL_eq_seg1 tab t hpos hT01 hgt hC (by linarith)]
    exact segEval_lb _ _ _ hT12 hm12 (le_of_lt hgt)
  · rcases le_or_lt t (tab.p3.temperature_c : ℚ) with hD | hD
    · rw [CFL_eq_seg2 tab t hpos hT01 hT12 hC hD (by linarith)]
      exact le_trans hm12 (segEval_lb _ _ _ hT23 hm23 (le_of_lt hC))
    · rcases lt_or_le t (tab.p4.temperature_c : ℚ) with hE | hE
      · rw [CFL_eq_seg3 tab t hpos hT01 hT12 hT23 hD hE]
        exact le_trans (le_trans hm12 hm23)
          (segEval_lb _ _ _ hT34 hm34 (le_of_lt hD))
      · rw [CFL_eq_last tab t hpos (by linarith) hE]
        exact le_trans (le_trans hm12 hm23) hm34

/-- Strictly beyond the third breakpoint the evaluator is at least the
third duty. -/
lemma CFL_ge_p2 (tab : FanTable) (t : ℚ) (hv : ValidTable tab)
    (hm : MonotoneDuties tab) (hpos : 0 < t)
    (hgt : (tab.p2.temperature_c : ℚ) < t) :
    tab.p2.fanLevel_f ≤ CalculateFanLevelTable tab t := by
  obtain ⟨hT01, hT12, hT23, hT34⟩ := tempCasts tab hv
  obtain ⟨hm01, hm12, hm23, hm34⟩ := hm
  rcases le_or_lt t (tab.p3.temperature_c : ℚ) with hD | hD
  · rw [CFL_eq_seg2 tab t hpos hT01 hT12 hgt hD (by linarith)]
    exact segEval_lb _ _ _ hT23 hm23 (le_of_lt hgt)
  · rcases lt_or_le t (tab.p4.temperature_c : ℚ) with hE | hE
    · rw [CFL_eq_seg3 tab t hpos hT01 hT12 hT23 hD hE]
      exact le_trans hm23 (segEval_lb _ _ _ hT34 hm34 (le_of_lt hD))
    · rw [CFL_eq_last tab t hpos (by linarith) hE]
      exact le_trans hm23 hm34

/-- Strictly beyond the fourth breakpoint the evaluator is at least the
fourth duty. -/
lemma CFL_ge_p3 (tab : FanTable) (t : ℚ) (hv : ValidTable tab)
    (hm : MonotoneDuties tab) (hpos : 0 < t)
    (hgt : (tab.p3.temperature_c : ℚ) < t) :
    tab.p3.fanLevel_f ≤ CalculateFanLevelTable tab t := by
  obtain ⟨hT01, hT12, hT23, hT34⟩ := tempCasts tab hv
  obtain ⟨hm01, hm12, hm23, hm34⟩ := hm
  rcases lt_or_le t (tab.p4.temperature_c : ℚ) with hE | hE
  · rw [CFL_eq_seg3 tab t hpos hT01 hT12 hT23 hgt hE]
    exact segEval_lb _ _ _ hT34 hm34 (le_of_lt hgt)
  · rw [CFL_eq_last tab t hpos (by linarith) hE]
    exact hm34

/-- C8: for every valid curve (strictly increasing temperatures, duty
cycles in the unit interval) with non-decreasing duty cycles, the curve
evaluator is monotone over its whole domain — the below-first-point ramp,
every interior interpolation interval, and the above-last-point clamp. -/
theorem evaluate_monotone (tab : FanTable) (hv : ValidTable tab)
    (hm : MonotoneDuties tab) (t1 t2 : ℚ) (h12 : t1 ≤ t2) :
    CalculateFanLevel (some tab) t1 ≤ CalculateFanLevel (some tab) t2 := by
  show CalculateFanLevelTable tab t1 ≤ CalculateFanLevelTable tab t2
  obtain ⟨hT01, hT12, hT23, hT34⟩ := tempCasts tab hv
  have hvDup := hv
  obtain ⟨_, _, _, _, hf0, _, hf1, _, hf2, _, hf3, _, hf4, _⟩ := hvDup
  have hmDup := hm
  obtain ⟨hm01, hm12, hm23, hm34⟩ := hmDup
  rcases le_or_lt t1 0 with hz | hpos1
  · rw [CFL_eq_zero tab t1 hz]
    exact CFL_nonneg tab t2 hv hm
  · have hpos2 : (0 : ℚ) < t2 := lt_of_lt_of_le hpos1 h12
    rcases le_or_lt t1 (tab.p0.temperature_c : ℚ) with hA | hA
    · have hT0pos : (0 : ℚ) < (tab.p0.temperature_c : ℚ) :=
        lt_of_lt_of_le hpos1 hA
      rw [CFL_eq_first tab t1 hpos1 hA]
      rcases le_or_lt t2 (tab.p0.temperature_c : ℚ) with hB | hB
      · rw [CFL_eq_first tab t2 hpos2 hB]
        exact firstRamp_mono _ _ _ _ hT0pos hf0 h12
      · exact le_trans (firstRamp_ub _ _ _ hT0pos hf0 hA)
          (CFL_ge_p0 tab t2 hv hm hpos2 hB)
    · rcases le_or_lt t1 (tab.p1.temperature_c : ℚ) with hA1 | hA1
      · rw [CFL_eq_seg0 tab t1 hpos1 hA hA1 (by linarith)]
        rcases le_or_lt t2 (tab.p1.temperature_c : ℚ) with hB | hB
        · rw [CFL_eq_seg0 tab t2 hpos2 (by linarith) hB (by linarith)]
          exact segEval_mono _ _ _ _ hT01 hm01 h12
        · exact le_trans (segEval_ub _ _ _ hT01 hm01 hA1)
            (CFL_ge_p1 tab t2 hv hm hpos2 hB)
      · rcases le_or_lt t1 (tab.p2.temperature_c : ℚ) with hA2 | hA2
        · rw [CFL_eq_seg1 tab t1 hpos1 hT01 hA1 hA2 (by linarith)]
          rcases le_or_lt t2 (tab.p2.temperature_c : ℚ) with hB | hB
          · rw [CFL_eq_seg1 tab t2 hpos2 hT01 (by linarith) hB (by linarith)]
            exact segEval_mono _ _ _ _ hT12 hm12 h12
          · exact le_trans (segEval_ub _ _ _ hT12 hm12 hA2)
              (CFL_ge_p2 tab t2 hv hm hpos2 hB)
        · rcases le_or_lt t1 (tab.p3.temperature_c : ℚ) with hA3 | hA3
          · rw [CFL_eq_seg2 tab t1 hpos1 hT01 hT12 hA2 hA3 (by linarith)]
            rcases le_or_lt t2 (tab.p3.temperature_c : ℚ) with hB | hB
            · rw [CFL_eq_seg2 tab t2 hpos2 hT01 hT12 (by linarith) hB
                (by linarith)]
              exact segEval_mono _ _ _ _ hT23 hm23 h12
            · exact le_trans (segEval_ub _ _ _ hT23 hm23 hA3)
                (CFL_ge_p3 tab t2 hv hm hpos2 hB)
          · rcases lt_or_le t1 (tab.p4.temperature_c : ℚ) with hA4 | hA4
            · rw [CFL_eq_seg3 tab t1 hpos1 hT01 hT12 hT23 hA3 hA4]
              rcases lt_or_le t2 (tab.p4.temperature_c : ℚ) with hB | hB
              · rw [CFL_eq_seg3 tab t2 hpos2 hT01 hT12 hT23 (by linarith) hB]
                exact segEval_mono _ _ _ _ hT34 hm34 h12
              · rw [CFL_eq_last tab t2 hpos2 (by linarith) hB]
                exact segEval_ub _ _ _ hT34 hm34 (le_of_lt hA4)
            · rw [CFL_eq_last tab t1 hpos1 (by linarith) hA4,
                CFL_eq_last tab t2 hpos2 (by linarith) (le_trans hA4 h12)]

/-- Witness for `evaluate_monotone` on the default curve at 30 and 45
degrees. -/
theorem evaluate_monotone_witness :
    CalculateFanLevel (some defaultTable) 30 ≤
      CalculateFanLevel (some defaultTable) 45 :=
  evaluate_monotone defaultTable (by norm_num [ValidTable, defaultTable])
    (by norm_num [MonotoneDuties, defaultTable]) 30 45 (by norm_num)

end CurveMonotonicity

/-- C9 counterexample: a strictly increasing, duty-valid curve whose
temperatures are all negative.  At `t = -1`, which is at (indeed equal to)
the temperature of the last point, the evaluator returns 0 — the `t ≤ 0` rule
runs before the clamp — not the duty cycle 0.3 of the last point. -/
theorem clamp_above_last_cex :
    ValidTable negTempTable ∧
    ((negTempTable.p4.temperature_c : ℚ) ≤ -1) ∧
    CalculateFanLevel (some negTempTable) (-1) ≠ negTempTable.p4.fanLevel_f := by
  refine ⟨by norm_num [ValidTable, negTempTable], by norm_num [negTempTable], ?_⟩
  norm_num [CalculateFanLevel, CalculateFanLevelTable, negTempTable]

/-- C9 amended: for every valid curve and every POSITIVE temperature at or
above the temperature of the last point, the evaluator returns the duty
cycle of the last point exactly (clamped, never extrapolated); temperatures at or below
zero are instead sent to duty 0 by the earlier zero rule. -/
theorem clamp_above_last (tab : FanTable) (t : ℚ) (hv : ValidTable tab)
    (hpos : (0 : ℚ) < t) (ht : (tab.p4.temperature_c : ℚ) ≤ t) :
    CalculateFanLevel (some tab) t = tab.p4.fanLevel_f := by
  obtain ⟨h01, h12, h23, h34, _⟩ := hv
  have hq : (tab.p0.temperature_c : ℚ) < (tab.p4.temperature_c : ℚ) := by
    exact_mod_cast lt_trans (lt_trans h01 h12) (lt_trans h23 h34)
  show CalculateFanLevelTable tab t = tab.p4.fanLevel_f
  unfold CalculateFanLevelTable
  rw [if_neg (by linarith), if_neg (by linarith), if_pos ht]

/-- Witness for `clamp_above_last`: the default curve at 150 °C returns the
ceiling duty 1. -/
theorem clamp_above_last_witness :
    CalculateFanLevel (some defaultTable) 150 = defaultTable.p4.fanLevel_f :=
  clamp_above_last defaultTable 150
    (by norm_num [ValidTable, defaultTable]) (by norm_num)
    (by norm_num [defaultTable])
